import Mathlib

/-!
Shallow embedding of the core of the premier-car-dealership landing page:
the API client (`src/services/api.js`), the field validators and the
lead-submission cooldown (`src/utils/validation.js` / `leadThrottle`),
and the inventory filter plus lead-submit coordinator from `src/App.js`.

JavaScript machine values are modelled explicitly: parsed JSON bodies are
an inductive `Json` type, possibly-undefined form values are `JsVal`,
functions that can throw return `Except String _` carrying the thrown
error message, and numbers are `Int` (all numerics in scope are integral
epoch-milliseconds, prices or years; `NaN`/absent is `Option.none`).
-/

/-- A parsed JSON value as produced by `JSON.parse` in the browser. -/
inductive Json where
  | null
  | bool (b : Bool)
  | num (n : Int)
  | str (s : String)
  | arr (elems : List Json)
  | obj (fields : List (String × Json))

/-- Property lookup `j?.[key]`: a field of an object, otherwise
`undefined` (modelled as `none`; JS property access on non-objects
yields `undefined` without throwing). -/
def Json.get? (j : Json) (key : String) : Option Json :=
  match j with
  | .obj fields => fields.lookup key
  | _ => none

/-- The text of an HTTP response body, as classified by `safeJson`:
empty, valid JSON parsing to a value, or non-empty unparseable text. -/
inductive BodyText where
  | empty
  | json (j : Json)
  | invalid (raw : String)

/-- `safeJson` from `services/api.js`: empty body gives `null`, valid
JSON gives the parsed value, unparseable text is wrapped as
an object with a single `raw` field. -/
def safeJson : BodyText → Json
  | .empty => Json.null
  | .json j => j
  | .invalid raw => Json.obj [("raw", Json.str raw)]

/-- Outcome of one `fetch` call: either the promise rejects with an
error message, or a response arrives with `ok` (2xx) flag, status,
status text and a body. -/
inductive FetchResult where
  | thrown (msg : String)
  | resp (ok : Bool) (status : Nat) (statusText : String) (body : BodyText)

/-- The string used from `body?.message || body?.error || ...` when the
field holds a truthy (non-empty) string; other shapes fall through.
(The claims only exercise string-valued `message`/`error` fields.) -/
def errField (body : Json) (key : String) : Option String :=
  match body.get? key with
  | some (.str s) => if s = "" then none else some s
  | _ => none

/-- `requestJson` from `services/api.js`: rethrows a fetch rejection;
on a non-2xx response builds an error message from the defensively
parsed body (`message`/`error` field or a status template) and throws
it; on 2xx returns the defensively parsed body. -/
def requestJson (r : FetchResult) : Except String Json :=
  match r with
  | .thrown msg => .error msg
  | .resp ok status statusText body =>
    if ok then .ok (safeJson body)
    else
      let b := safeJson body
      .error ((errField b "message").getD ((errField b "error").getD
        ("Request failed (" ++ toString status ++ " " ++ statusText ++ ")")))

/-- `getMockInventory` from `services/api.js`: the built-in static
dataset returned when no backend is configured or every read candidate
fails. -/
def getMockInventory : List Json :=
  [ Json.obj
      [ ("id", Json.str "car-001"),
        ("title", Json.str "2022 Honda Accord EX"),
        ("price", Json.num 26995),
        ("year", Json.num 2022),
        ("make", Json.str "Honda"),
        ("model", Json.str "Accord"),
        ("body", Json.str "Sedan"),
        ("mileage", Json.num 22110),
        ("fuel", Json.str "Gas"),
        ("transmission", Json.str "Automatic"),
        ("drivetrain", Json.str "FWD"),
        ("color", Json.str "Platinum White"),
        ("imageUrl", Json.null),
        ("highlights", Json.arr
          [Json.str "Clean CARFAX", Json.str "Adaptive Cruise", Json.str "Apple CarPlay"]),
        ("description", Json.str
          "A comfortable, efficient midsize sedan with modern safety features and a refined interior.") ],
    Json.obj
      [ ("id", Json.str "car-002"),
        ("title", Json.str "2021 Toyota RAV4 XLE"),
        ("price", Json.num 28950),
        ("year", Json.num 2021),
        ("make", Json.str "Toyota"),
        ("model", Json.str "RAV4"),
        ("body", Json.str "SUV"),
        ("mileage", Json.num 28405),
        ("fuel", Json.str "Gas"),
        ("transmission", Json.str "Automatic"),
        ("drivetrain", Json.str "AWD"),
        ("color", Json.str "Magnetic Gray"),
        ("imageUrl", Json.null),
        ("highlights", Json.arr
          [Json.str "AWD", Json.str "Heated Seats", Json.str "Lane Assist"]),
        ("description", Json.str
          "Versatile compact SUV with excellent reliability and everyday practicality.") ],
    Json.obj
      [ ("id", Json.str "car-003"),
        ("title", Json.str "2020 Tesla Model 3 Standard Range Plus"),
        ("price", Json.num 30990),
        ("year", Json.num 2020),
        ("make", Json.str "Tesla"),
        ("model", Json.str "Model 3"),
        ("body", Json.str "Sedan"),
        ("mileage", Json.num 19820),
        ("fuel", Json.str "Electric"),
        ("transmission", Json.str "Single-speed"),
        ("drivetrain", Json.str "RWD"),
        ("color", Json.str "Red Multi-Coat"),
        ("imageUrl", Json.null),
        ("highlights", Json.arr
          [Json.str "Autopilot", Json.str "Fast Charging", Json.str "Premium Audio"]),
        ("description", Json.str
          "All-electric sedan with instant torque, a minimalist cabin, and strong safety ratings.") ],
    Json.obj
      [ ("id", Json.str "car-004"),
        ("title", Json.str "2023 Ford F-150 XLT"),
        ("price", Json.num 41995),
        ("year", Json.num 2023),
        ("make", Json.str "Ford"),
        ("model", Json.str "F-150"),
        ("body", Json.str "Truck"),
        ("mileage", Json.num 12050),
        ("fuel", Json.str "Gas"),
        ("transmission", Json.str "Automatic"),
        ("drivetrain", Json.str "4WD"),
        ("color", Json.str "Iconic Silver"),
        ("imageUrl", Json.null),
        ("highlights", Json.arr
          [Json.str "4WD", Json.str "Tow Package", Json.str "Remote Start"]),
        ("description", Json.str
          "America’s favorite pickup with power, tech, and comfort for work or weekend adventures.") ],
    Json.obj
      [ ("id", Json.str "car-005"),
        ("title", Json.str "2022 BMW X3 xDrive30i"),
        ("price", Json.num 39950),
        ("year", Json.num 2022),
        ("make", Json.str "BMW"),
        ("model", Json.str "X3"),
        ("body", Json.str "SUV"),
        ("mileage", Json.num 16490),
        ("fuel", Json.str "Gas"),
        ("transmission", Json.str "Automatic"),
        ("drivetrain", Json.str "AWD"),
        ("color", Json.str "Alpine White"),
        ("imageUrl", Json.null),
        ("highlights", Json.arr
          [Json.str "Luxury Package", Json.str "Panoramic Roof", Json.str "AWD"]),
        ("description", Json.str
          "Premium compact SUV with sporty handling and a high-quality, tech-forward cabin.") ],
    Json.obj
      [ ("id", Json.str "car-006"),
        ("title", Json.str "2021 Mazda CX-5 Touring"),
        ("price", Json.num 24995),
        ("year", Json.num 2021),
        ("make", Json.str "Mazda"),
        ("model", Json.str "CX-5"),
        ("body", Json.str "SUV"),
        ("mileage", Json.num 26340),
        ("fuel", Json.str "Gas"),
        ("transmission", Json.str "Automatic"),
        ("drivetrain", Json.str "AWD"),
        ("color", Json.str "Deep Crystal Blue"),
        ("imageUrl", Json.null),
        ("highlights", Json.arr
          [Json.str "AWD", Json.str "Blind Spot Monitor", Json.str "Great Condition"]),
        ("description", Json.str
          "A stylish SUV known for agile driving dynamics and an upscale interior feel.") ] ]

/-- `Array.isArray(data) ? data : data?.items` followed by the
`Array.isArray(items)` validity check in `fetchInventory`. -/
def itemsOf (data : Json) : Option (List Json) :=
  match data with
  | .arr elems => some elems
  | _ =>
    match data.get? "items" with
    | some (.arr elems) => some elems
    | _ => none

/-- The read candidate paths tried by `fetchInventory`, in order. -/
def inventoryCandidates : List String :=
  ["/api/inventory", "/inventory", "/api/cars", "/cars"]

/-- The default warning used when no candidate produced an error with a
truthy message. -/
def fallbackWarning : String :=
  "Backend inventory endpoint unavailable; using mock inventory."

/-- `lastErr?.message || "Backend inventory endpoint unavailable; ..."`:
the warning attached to the mock fallback result. -/
def warningOf (lastErr : Option String) : String :=
  match lastErr with
  | some m => if m = "" then fallbackWarning else m
  | none => fallbackWarning

/-- The `{source, items, warning?}` snapshot produced by
`fetchInventory`. -/
structure InventoryResult where
  source : String
  items : List Json
  warning : Option String

/-- The candidate loop of `fetchInventory`, instrumented with the list
of candidate paths actually attempted (in attempt order). The
environment `env` gives the transport outcome for each path. A 2xx
structurally valid response short-circuits with an `api` result; an
error records `lastErr` and advances; a 2xx invalid shape advances
without recording an error; exhaustion falls back to the mock dataset
with a warning. -/
def fetchInventoryAux (env : String → FetchResult) :
    List String → Option String → InventoryResult × List String
  | [], lastErr => (⟨"mock", getMockInventory, some (warningOf lastErr)⟩, [])
  | path :: rest, lastErr =>
    match requestJson (env path) with
    | .ok data =>
      match itemsOf data with
      | some items => (⟨"api", items, none⟩, [path])
      | none =>
        let r := fetchInventoryAux env rest lastErr
        (r.1, path :: r.2)
    | .error e =>
      let r := fetchInventoryAux env rest (some e)
      (r.1, path :: r.2)

/-- `fetchInventory` from `services/api.js`: with no configured backend
it returns the mock dataset immediately (no warning); otherwise it runs
the candidate loop. It never throws — its result type is a plain
`InventoryResult`. -/
def fetchInventory (hasApiBase : Bool) (env : String → FetchResult) : InventoryResult :=
  if !hasApiBase then ⟨"mock", getMockInventory, none⟩
  else (fetchInventoryAux env inventoryCandidates none).1

/-- The write candidate paths tried by `submitLead`, in order. -/
def leadCandidates : List String :=
  ["/api/leads", "/leads", "/api/contact", "/contact"]

/-- The `{ok, source, data}` success value of `submitLead` (the mock
path carries no `data`; modelled as `Json.null` / `undefined`). -/
structure LeadResult where
  ok : Bool
  source : String
  data : Json

/-- The candidate loop of `submitLead`: first 2xx response wins; every
failure records `lastErr` and advances; exhaustion throws
`lastErr || new Error("Lead submission failed.")`. -/
def submitLeadAux (env : String → FetchResult) :
    List String → Option String → Except String LeadResult
  | [], lastErr => .error (lastErr.getD "Lead submission failed.")
  | path :: rest, _lastErr =>
    match requestJson (env path) with
    | .ok data => .ok ⟨true, "api", data⟩
    | .error e => submitLeadAux env rest (some e)

/-- `submitLead` from `services/api.js`: with no configured backend it
returns a simulated mock success; otherwise it runs the write candidate
loop and throws on exhaustion. -/
def submitLead (hasApiBase : Bool) (env : String → FetchResult) : Except String LeadResult :=
  if !hasApiBase then .ok ⟨true, "mock", Json.null⟩
  else submitLeadAux env leadCandidates none

/-- A raw JavaScript form-field value: possibly `undefined`, `null`,
a string, or wrong-typed (number / boolean). -/
inductive JsVal where
  | undef
  | jsnull
  | str (s : String)
  | num (n : Int)
  | bool (b : Bool)

/-- JavaScript truthiness of a `JsVal` (`undefined`, `null`, `""`,
`0` and `false` are falsy). -/
def jsTruthy : JsVal → Bool
  | .undef => false
  | .jsnull => false
  | .str s => s != ""
  | .num n => n != 0
  | .bool b => b

/-- `(value || "")`: the value itself when truthy, else the empty
string. -/
def jsOrEmpty (v : JsVal) : JsVal :=
  if jsTruthy v then v else .str ""

/-- Modelled JS builtin `String.prototype.trim`: drops leading and
trailing whitespace (stated over the character list so that it is
kernel-reducible). -/
def jsTrim (s : String) : String :=
  ⟨(s.toList.dropWhile Char.isWhitespace).reverse.dropWhile Char.isWhitespace |>.reverse⟩

/-- Modelled JS builtin `String.prototype.toLowerCase` (ASCII case
mapping, the only alphabet the claims exercise). -/
def jsToLower (s : String) : String :=
  ⟨s.toList.map Char.toLower⟩

/-- A method call `v.trim()`: returns the trimmed string when `v` is a
string, otherwise throws a `TypeError` (`.trim` is `undefined` on
non-string values). -/
def jsTrimCall (v : JsVal) : Except String String :=
  match v with
  | .str s => .ok (jsTrim s)
  | _ => .error "TypeError: value.trim is not a function"

/-- `validateRequired` from `utils/validation.js`: non-strings and
blank strings fail; total (the `typeof` guard runs before `.trim`). -/
def validateRequired (value : JsVal) : String :=
  match value with
  | .str s => if jsTrim s = "" then "This field is required." else ""
  | _ => "This field is required."

/-- A character admissible in every segment of `EMAIL_RE`
(`[^\s@]`): anything that is not whitespace and not `@`. -/
def emailCharOk (c : Char) : Bool :=
  !(c.isWhitespace || c = '@')

/-- Semantics of `EMAIL_RE.test`: the regex
`^[^\s@]+@[^\s@]+\.[^\s@]{2,}$` (case-insensitively, which is vacuous
here) accepts exactly the strings of the form `A@B.C` with `A`, `B`
non-empty, `C` of length at least 2, and no whitespace or `@` outside
the single literal `@` (dots may occur inside `B` and `C`). -/
def EMAIL_RE_test (s : String) : Bool :=
  let cs := s.toList
  match (List.range cs.length).filter (fun i => cs.getD i ' ' = '@') with
  | [i] =>
    let localPart := cs.take i
    let domainPart := cs.drop (i + 1)
    localPart ≠ [] && localPart.all emailCharOk && domainPart.all emailCharOk &&
      (List.range domainPart.length).any
        (fun j => cs.getD (i + 1 + j) ' ' = '.' && 1 ≤ j && j + 3 ≤ domainPart.length)
  | _ => false

/-- `validateEmail` from `utils/validation.js`: runs `validateRequired`
first and short-circuits on its failure, then tests the trimmed value
against `EMAIL_RE`. (The non-string fallthrough branch is unreachable:
`validateRequired` already rejected every non-string.) -/
def validateEmail (value : JsVal) : String :=
  let req := validateRequired value
  if req != "" then req
  else
    match value with
    | .str s => if !EMAIL_RE_test (jsTrim s) then "Enter a valid email address." else ""
    | _ => ""

/-- A character admissible in `PHONE_RE` (`[+()\-.\s\d]`). -/
def phoneCharOk (c : Char) : Bool :=
  c = '+' || c = '(' || c = ')' || c = '-' || c = '.' || c.isWhitespace || c.isDigit

/-- Semantics of `PHONE_RE.test`: the regex `^[+()\-.\s\d]{7,}$`
accepts exactly the strings of length at least 7 all of whose
characters lie in the class. -/
def PHONE_RE_test (s : String) : Bool :=
  7 ≤ s.length && s.toList.all phoneCharOk

/-- `validatePhoneOptional` from `utils/validation.js`:
`(value || "").trim()` — which throws a `TypeError` on truthy
non-string values — then empty is valid and non-empty must match
`PHONE_RE`. -/
def validatePhoneOptional (value : JsVal) : Except String String := do
  let v ← jsTrimCall (jsOrEmpty value)
  if v = "" then return ""
  else if !PHONE_RE_test v then return "Enter a valid phone number."
  else return ""

/-- `validateMinLen` from `utils/validation.js`: `(value || "").trim()`
— which throws a `TypeError` on truthy non-string values — then fails
when the trimmed length is below `min`, interpolating `min` and the
field name into the message. -/
def validateMinLen (value : JsVal) (min : Nat) (fieldName : String) :
    Except String String := do
  let v ← jsTrimCall (jsOrEmpty value)
  if v.length < min then
    return (fieldName ++ " must be at least " ++ toString min ++ " characters.")
  else return ""

/-- Outcome of reading the persisted cooldown key from browser-local
storage: the read throws, the key is absent (`null`), or a string
value is present. -/
inductive StorageRead where
  | throws
  | absent
  | val (raw : String)

/-- The value of a non-empty all-digit character sequence, `none`
otherwise. -/
def digitsToNat? (cs : List Char) : Option Nat :=
  if cs ≠ [] ∧ cs.all Char.isDigit then
    some (cs.foldl (fun acc c => 10 * acc + (c.toNat - 48)) 0)
  else none

/-- Modelled JS builtin: `Number(s)` restricted to the shapes the
claims exercise — the trimmed empty string is `0`, an optionally
signed decimal integer string is its value, and every other string is
`NaN`/non-finite (`none`), which is exactly what
`Number.isFinite` then rejects. (The persisted value is always
`String(Date.now())`, an unsigned decimal integer.) -/
def jsNumber (s : String) : Option Int :=
  match (jsTrim s).toList with
  | [] => some 0
  | '-' :: rest => (digitsToNat? rest).map (fun n => -(n : Int))
  | '+' :: rest => (digitsToNat? rest).map (fun n => (n : Int))
  | cs => (digitsToNat? cs).map (fun n => (n : Int))

/-- The default cooldown window (24 hours in milliseconds). -/
def DEFAULT_WINDOW_MS : Int := 24 * 60 * 60 * 1000

/-- `getLeadSubmissionCooldownRemainingMs` from `utils/leadThrottle`:
reads the persisted timestamp inside a `try`/`catch`; absent or falsy
raw value, a non-finite parse, or a fully elapsed window give `0`;
otherwise the positive remainder `windowMs - (now - ts)` is returned.
A throwing storage read is caught and gives `0`. -/
def getLeadSubmissionCooldownRemainingMs
    (windowMs : Int) (storage : StorageRead) (now : Int) : Int :=
  match storage with
  | .throws => 0
  | .absent => 0
  | .val raw =>
    if raw = "" then 0
    else
      match jsNumber raw with
      | none => 0
      | some ts =>
        let elapsed := now - ts
        let remaining := windowMs - elapsed
        if remaining > 0 then remaining else 0

/-- A vehicle record as seen by the inventory filter in `App.js`,
through the JS coercions it applies: the string fields are `none` when
absent (`undefined`), `price` holds the finite value of
`Number(car?.price)` (`none` for `NaN`/absent), and `year` is the
numeric year (`none` for absent). -/
structure Car where
  title : Option String
  make : Option String
  model : Option String
  body : Option String
  year : Option Int
  price : Option Int

/-- `normalizeStr` from `App.js`: `(v || "").toString().trim().toLowerCase()`
on a string input. -/
def normalizeStr (v : String) : String :=
  jsToLower (jsTrim v)

/-- `car?.field || ""`: absent (and the falsy empty string) render as
the empty string. -/
def jsStrOrEmpty (o : Option String) : String :=
  match o with
  | some s => s
  | none => ""

/-- `car?.year || ""` inside a template literal: an absent year — and,
by JS falsiness, the year `0` — renders as the empty string, any other
number as its decimal string. -/
def jsYearStr (o : Option Int) : String :=
  match o with
  | some y => if y = 0 then "" else toString y
  | none => ""

/-- `sub` occurs as a substring of `s` (`String.prototype.includes`). -/
def jsIncludes (s sub : String) : Bool :=
  decide (sub.toList <:+: s.toList)

/-- The search haystack of the filter: the space-joined template
literal over title, make, model, body and year, normalized. -/
def haystackOf (car : Car) : String :=
  normalizeStr
    (jsStrOrEmpty car.title ++ " " ++ jsStrOrEmpty car.make ++ " " ++
     jsStrOrEmpty car.model ++ " " ++ jsStrOrEmpty car.body ++ " " ++
     jsYearStr car.year)

/-- The filter criteria owned by the UI: `make`/`body` use the `"All"`
sentinel, `maxPrice` is a finite number or the `"Any"` sentinel
(`none`, for which `Number("Any")`/`Infinity` fails the
`Number.isFinite` test in the evaluator). -/
structure FilterCriteria where
  query : String
  make : String
  body : String
  maxPrice : Option Int

/-- The per-item predicate of `filteredInventory` in `App.js`:
`makeOk && bodyOk && priceOk && qOk` with strict equality on make and
body, `(priceNum || 0) <= max` when `max` is finite (else true), and a
normalized substring test when the normalized query is non-empty. -/
def carMatches (filters : FilterCriteria) (car : Car) : Bool :=
  let q := normalizeStr filters.query
  let makeOk := filters.make = "All" || car.make = some filters.make
  let bodyOk := filters.body = "All" || car.body = some filters.body
  let priceOk :=
    match filters.maxPrice with
    | none => true
    | some max => (car.price.getD 0) ≤ max
  let qOk := q = "" || jsIncludes (haystackOf car) q
  makeOk && bodyOk && priceOk && qOk

/-- `filteredInventory` from `App.js`: `items.filter(...)` with the
predicate above. -/
def filteredInventory (filters : FilterCriteria) (items : List Car) : List Car :=
  items.filter (carMatches filters)

/-- The lead-form field state in `App.js` (every field is a string;
`onChange` handlers only ever store `e.target.value`). -/
structure LeadFormValues where
  name : String
  dealership : String
  title : String
  email : String
  phone : String
  message : String
  interest : String

/-- `validateLeadForm` from `App.js`: runs the required/email/phone
validators on their fields, and `validateMinLen(msg, 10, "Message")`
on the trimmed message only when it is non-empty; collects the
non-empty messages keyed by field, in source order. (The `Except`
propagates a thrown validator error; on the string-typed form state it
is always `.ok`.) -/
def validateLeadForm (values : LeadFormValues) :
    Except String (List (String × String)) := do
  let nameErr := validateRequired (.str values.name)
  let dealerErr := validateRequired (.str values.dealership)
  let titleErr := validateRequired (.str values.title)
  let emailErr := validateEmail (.str values.email)
  let phoneErr ← validatePhoneOptional (.str values.phone)
  let msg := jsTrim values.message
  let msgErr ← if msg != "" then validateMinLen (.str msg) 10 "Message" else pure ""
  return ([("name", nameErr), ("dealership", dealerErr), ("title", titleErr),
           ("email", emailErr), ("phone", phoneErr), ("message", msgErr)].filter
            (fun kv => kv.2 != ""))

/-- The front section of `handleLeadSubmit` in `App.js`, up to the
point where the write is dispatched to the resolver: the cooldown
check runs first and blocks, then a submit while the status is already
`"submitting"` returns without doing anything, then validation errors
reject the submit leaving the status unchanged, and otherwise the
status becomes `"submitting"` and exactly one write attempt is
dispatched. The returned pair is (new status, number of write attempts
dispatched by this submit event). -/
def handleLeadSubmitStep (cooldownRemaining : Int) (form : LeadFormValues)
    (status : String) : Except String (String × Nat) :=
  if cooldownRemaining > 0 then .ok ("blocked", 0)
  else if status = "submitting" then .ok (status, 0)
  else do
    let errs ← validateLeadForm form
    if errs.length > 0 then return (status, 0)
    else return ("submitting", 1)

/-- The claim-side inclusion condition, stated the way the
specification words it: make is the `"All"` sentinel or equals the
item make exactly; likewise for body; maxPrice is the `"Any"` sentinel
or the item price — a non-numeric price counting as `0` for this
comparison only — is at most it; and the query is empty or its
trimmed, lower-cased form occurs in the space-joined concatenation of
title, make, model, body and year (each defaulting to the empty
string), compared case-insensitively. -/
def claimIncluded (f : FilterCriteria) (car : Car) : Bool :=
  (f.make = "All" || car.make = some f.make) &&
  (f.body = "All" || car.body = some f.body) &&
  (match f.maxPrice with
   | none => true
   | some maxP =>
     (match car.price with
      | some p => p
      | none => 0) ≤ maxP) &&
  (normalizeStr f.query = "" ||
    jsIncludes
      (normalizeStr
        (jsStrOrEmpty car.title ++ " " ++ jsStrOrEmpty car.make ++ " " ++
         jsStrOrEmpty car.model ++ " " ++ jsStrOrEmpty car.body ++ " " ++
         jsYearStr car.year))
      (normalizeStr f.query))

/-- A read candidate fails: the request throws (non-2xx status or a
transport error), or it returns 2xx with a body that is neither a bare
array nor an object exposing an `items` array. -/
def candidateFails (env : String → FetchResult) (p : String) : Prop :=
  (∃ e, requestJson (env p) = .error e) ∨
  (∃ d, requestJson (env p) = .ok d ∧ itemsOf d = none)

/-- An environment in which every request rejects. -/
def envAllFail : String → FetchResult := fun _ => .thrown "boom"

/-- The C3 scenario: the first read candidate answers HTTP 404, the
second answers 2xx with an object exposing `items`. -/
def env404B : String → FetchResult := fun p =>
  if p = "/inventory" then
    .resp true 200 "OK" (.json (.obj [("items", .arr [Json.str "x", Json.str "y"])]))
  else .resp false 404 "Not Found" .empty

/-- The cases in which the claim says the cooldown is inactive: the
storage read throws, the key is absent, the value is corrupt
(non-numeric), or the window has fully elapsed. -/
def cooldownVoid (windowMs : Int) (storage : StorageRead) (now : Int) : Prop :=
  storage = .throws ∨ storage = .absent ∨
  (∃ raw, storage = .val raw ∧ jsNumber raw = none) ∨
  (∃ raw ts, storage = .val raw ∧ jsNumber raw = some ts ∧ windowMs ≤ now - ts)

/-- The claim-side phone pattern: only digits, whitespace, parentheses,
`+`, `-` and `.`, with at least 7 characters. -/
def phoneClaimOk (t : String) : Prop :=
  7 ≤ t.length ∧ ∀ c ∈ t.toList,
    (c.isDigit ∨ c.isWhitespace ∨ c = '(' ∨ c = ')' ∨ c = '+' ∨ c = '-' ∨ c = '.')

/-- A concrete lead form that passes every validator. -/
def leadIdleForm : LeadFormValues :=
  ⟨"Jane Doe", "Premier Auto", "Owner", "jane@dealer.example", "", "", "Request a Demo"⟩

theorem warningOf_ne_empty (lastErr : Option String) : warningOf lastErr ≠ "" := by
  cases lastErr with
  | none => simp [warningOf, fallbackWarning]
  | some m =>
    simp only [warningOf]
    split
    · simp [fallbackWarning]
    · assumption

theorem fetchInventoryAux_exhausted (env : String → FetchResult) :
    ∀ (paths : List String) (lastErr : Option String),
      (∀ p ∈ paths, candidateFails env p) →
      ∃ le, (fetchInventoryAux env paths lastErr).1 =
        ⟨"mock", getMockInventory, some (warningOf le)⟩ := by
  intro paths
  induction paths with
  | nil => intro lastErr _; exact ⟨lastErr, rfl⟩
  | cons p ps ih =>
    intro lastErr h
    have hp := h p (List.mem_cons_self p ps)
    have hrest : ∀ q ∈ ps, candidateFails env q :=
      fun q hq => h q (List.mem_cons_of_mem p hq)
    rcases hp with ⟨e, he⟩ | ⟨d, hd, hitems⟩
    · obtain ⟨le, hle⟩ := ih (some e) hrest
      exact ⟨le, by simp [fetchInventoryAux, he, hle]⟩
    · obtain ⟨le, hle⟩ := ih lastErr hrest
      exact ⟨le, by simp [fetchInventoryAux, hd, hitems, hle]⟩

theorem fetchInventoryAux_trace (env : String → FetchResult) :
    ∀ (paths : List String) (lastErr : Option String),
      ∃ n, (fetchInventoryAux env paths lastErr).2 = paths.take n := by
  intro paths
  induction paths with
  | nil => intro lastErr; exact ⟨0, rfl⟩
  | cons p ps ih =>
    intro lastErr
    match hreq : requestJson (env p) with
    | .ok data =>
      match hitems : itemsOf data with
      | some items => exact ⟨1, by simp [fetchInventoryAux, hreq, hitems]⟩
      | none =>
        obtain ⟨n, hn⟩ := ih lastErr
        exact ⟨n + 1, by simp [fetchInventoryAux, hreq, hitems, hn]⟩
    | .error e =>
      obtain ⟨n, hn⟩ := ih (some e)
      exact ⟨n + 1, by simp [fetchInventoryAux, hreq, hn]⟩

theorem submitLeadAux_all_fail :
    ∀ (ps : List String) (p : String) (env : String → FetchResult)
      (lastErr : Option String) (m : String),
      (∀ q ∈ ps, ∃ e, requestJson (env q) = .error e) →
      requestJson (env p) = .error m →
      submitLeadAux env (ps ++ [p]) lastErr = .error m := by
  intro ps
  induction ps with
  | nil => intro p env lastErr m _ hp; simp [submitLeadAux, hp]
  | cons q qs ih =>
    intro p env lastErr m hall hp
    obtain ⟨e, he⟩ := hall q (List.mem_cons_self q qs)
    have hrest : ∀ r ∈ qs, ∃ e, requestJson (env r) = .error e :=
      fun r hr => hall r (List.mem_cons_of_mem q hr)
    simpa [submitLeadAux, he] using ih p env (some e) m hrest hp

theorem submitLeadAux_ok_source (env : String → FetchResult) :
    ∀ (paths : List String) (lastErr : Option String) (r : LeadResult),
      submitLeadAux env paths lastErr = .ok r → r.source = "api" := by
  intro paths
  induction paths with
  | nil => intro lastErr r h; simp [submitLeadAux] at h
  | cons p ps ih =>
    intro lastErr r h
    match hreq : requestJson (env p) with
    | .ok data =>
      simp [submitLeadAux, hreq] at h
      rw [← h]
    | .error e =>
      simp [submitLeadAux, hreq] at h
      exact ih (some e) r h

/-- Claim C2: with a configured backend, when every read candidate
fails (rejected request or 2xx body of invalid shape), `fetchInventory`
still returns usable data — source `"mock"`, the built-in static
dataset as items, and a non-empty warning — rather than raising (its
result type is a plain `InventoryResult`). -/
theorem claim_C2_read_exhaustion_falls_back (env : String → FetchResult)
    (h : ∀ p ∈ inventoryCandidates, candidateFails env p) :
    (fetchInventory true env).source = "mock" ∧
    (fetchInventory true env).items = getMockInventory ∧
    ∃ w, (fetchInventory true env).warning = some w ∧ w ≠ "" := by
  obtain ⟨le, hle⟩ := fetchInventoryAux_exhausted env inventoryCandidates none h
  have hfi : fetchInventory true env = (fetchInventoryAux env inventoryCandidates none).1 := rfl
  rw [hfi, hle]
  exact ⟨rfl, rfl, warningOf le, rfl, warningOf_ne_empty le⟩

theorem claim_C2_witness :
    (fetchInventory true envAllFail).source = "mock" ∧
    (fetchInventory true envAllFail).items = getMockInventory ∧
    ∃ w, (fetchInventory true envAllFail).warning = some w ∧ w ≠ "" :=
  claim_C2_read_exhaustion_falls_back envAllFail (fun p _ => Or.inl ⟨"boom", rfl⟩)

/-- Claim C3: read candidates are attempted strictly in listed order
and each at most once (the attempt trace is a duplicate-free prefix of
the candidate list); the first candidate with a 2xx structurally valid
response ends resolution with `source "api"`, those items and no
warning, attempting no later candidate; and in the concrete scenario
where the first candidate answers 404 and the second answers
2xx with an object exposing an items array, the result is the
`api` result with those two items and no warning. -/
theorem claim_C3_first_success_short_circuits :
    (∀ env : String → FetchResult,
      ∃ n, (fetchInventoryAux env inventoryCandidates none).2 = inventoryCandidates.take n ∧
        ((fetchInventoryAux env inventoryCandidates none).2).Nodup) ∧
    (∀ (env : String → FetchResult) (p : String) (rest : List String)
        (lastErr : Option String) (d : Json) (items : List Json),
      requestJson (env p) = .ok d → itemsOf d = some items →
      fetchInventoryAux env (p :: rest) lastErr = (⟨"api", items, none⟩, [p])) ∧
    fetchInventory true env404B = ⟨"api", [Json.str "x", Json.str "y"], none⟩ := by
  refine ⟨?_, ?_, rfl⟩
  · intro env
    obtain ⟨n, hn⟩ := fetchInventoryAux_trace env inventoryCandidates none
    refine ⟨n, hn, ?_⟩
    rw [hn]
    exact (List.take_sublist n inventoryCandidates).nodup (by decide)
  · intro env p rest lastErr d items hreq hitems
    simp [fetchInventoryAux, hreq, hitems]

theorem claim_C3_witness :
    fetchInventoryAux (fun _ => FetchResult.resp true 200 "OK" (.json (Json.arr [])))
      ["/x"] none = (⟨"api", [], none⟩, ["/x"]) :=
  claim_C3_first_success_short_circuits.2.1 _ "/x" [] none (Json.arr []) [] rfl rfl

/-- Claim C4: with a configured backend, when every write candidate
fails, `submitLead` throws the last-seen failure (the error of the
final attempted candidate, `"/contact"`), and a failed write never
yields a mock/fallback success: any `ok` result of the resolver loop
carries source `"api"`. -/
theorem claim_C4_write_exhaustion_throws_last :
    (∀ (env : String → FetchResult) (m : String),
      (∀ p ∈ leadCandidates, ∃ e, requestJson (env p) = .error e) →
      requestJson (env "/contact") = .error m →
      submitLead true env = .error m) ∧
    (∀ (env : String → FetchResult) (r : LeadResult),
      submitLead true env = .ok r → r.source = "api") := by
  constructor
  · intro env m hall hlast
    have hsplit : leadCandidates = ["/api/leads", "/leads", "/api/contact"] ++ ["/contact"] := rfl
    have : submitLead true env = submitLeadAux env leadCandidates none := rfl
    rw [this, hsplit]
    refine submitLeadAux_all_fail _ "/contact" env none m ?_ hlast
    intro q hq
    exact hall q (by rw [hsplit]; exact List.mem_append_left _ hq)
  · intro env r h
    exact submitLeadAux_ok_source env leadCandidates none r h

theorem claim_C4_witness :
    submitLead true envAllFail = .error "boom" :=
  claim_C4_write_exhaustion_throws_last.1 envAllFail "boom"
    (fun p _ => ⟨"boom", rfl⟩) rfl

theorem carMatches_eq_claimIncluded (f : FilterCriteria) (c : Car) :
    carMatches f c = claimIncluded f c := by
  unfold carMatches claimIncluded haystackOf
  cases f.maxPrice <;> cases c.price <;> rfl

/-- Claim C1: for every list of vehicle records and every filter
criteria the evaluator returns exactly the order-preserving
subsequence of items satisfying the four spec conditions — it equals
`List.filter` of the claim-worded predicate, and is a sublist of the
input. -/
theorem claim_C1_filter_evaluator (f : FilterCriteria) (items : List Car) :
    filteredInventory f items = items.filter (fun car => claimIncluded f car) ∧
    List.Sublist (filteredInventory f items) items := by
  constructor
  · unfold filteredInventory
    congr 1
    funext car
    exact carMatches_eq_claimIncluded f car
  · exact List.filter_sublist items

theorem claim_C1_witness :
    filteredInventory ⟨"suv", "All", "All", some 30000⟩
        [⟨some "2021 Toyota RAV4 XLE", some "Toyota", some "RAV4", some "SUV",
          some 2021, some 28950⟩] =
      List.filter
        (fun car => claimIncluded ⟨"suv", "All", "All", some 30000⟩ car)
        [⟨some "2021 Toyota RAV4 XLE", some "Toyota", some "RAV4", some "SUV",
          some 2021, some 28950⟩] :=
  (claim_C1_filter_evaluator ⟨"suv", "All", "All", some 30000⟩
    [⟨some "2021 Toyota RAV4 XLE", some "Toyota", some "RAV4", some "SUV",
      some 2021, some 28950⟩]).1

/-- Claim C8: the filter with all-sentinel criteria (`make "All"`,
`body "All"`, `maxPrice "Any"`, empty query) is the identity on every
item list, order preserved. -/
theorem claim_C8_sentinel_identity (items : List Car) :
    filteredInventory ⟨"", "All", "All", none⟩ items = items := by
  have h : carMatches ⟨"", "All", "All", none⟩ = fun _ => true := funext fun car => rfl
  unfold filteredInventory
  rw [h]
  exact List.filter_true items

theorem exceptBind_ok {α β : Type} (a : α) (f : α → Except String β) :
    (Except.ok a >>= f : Except String β) = f a := rfl

theorem jsOrEmpty_str (s : String) (hs : s ≠ "") :
    jsOrEmpty (JsVal.str s) = JsVal.str s := by
  simp [jsOrEmpty, jsTruthy, hs]

theorem jsOrEmpty_falsy (v : JsVal) (hv : jsTruthy v = false) :
    jsOrEmpty v = JsVal.str "" := by
  simp [jsOrEmpty, hv]

theorem validatePhoneOptional_str (s : String) :
    validatePhoneOptional (JsVal.str s) =
      (if jsTrim s = "" then .ok ""
       else if !PHONE_RE_test (jsTrim s) then .ok "Enter a valid phone number."
       else .ok "") := by
  by_cases hs : s = ""
  · subst hs; rfl
  · unfold validatePhoneOptional
    rw [jsOrEmpty_str s hs]
    show (Except.ok (jsTrim s) >>= fun v =>
      if v = "" then pure ""
      else if !PHONE_RE_test v then pure "Enter a valid phone number."
      else pure "") = _
    rw [exceptBind_ok]
    rfl

theorem validatePhoneOptional_falsy (v : JsVal) (hv : jsTruthy v = false) :
    validatePhoneOptional v = .ok "" := by
  unfold validatePhoneOptional
  rw [jsOrEmpty_falsy v hv]
  rfl

theorem validateMinLen_str (s : String) (min : Nat) (fieldName : String) :
    validateMinLen (JsVal.str s) min fieldName =
      (if (jsTrim s).length < min then
        .ok (fieldName ++ " must be at least " ++ toString min ++ " characters.")
       else .ok "") := by
  by_cases hs : s = ""
  · subst hs; rfl
  · unfold validateMinLen
    rw [jsOrEmpty_str s hs]
    show (Except.ok (jsTrim s) >>= fun v =>
      if v.length < min then
        pure (fieldName ++ " must be at least " ++ toString min ++ " characters.")
      else pure "") = _
    rw [exceptBind_ok]
    rfl

theorem validateMinLen_falsy (v : JsVal) (min : Nat) (fieldName : String)
    (hv : jsTruthy v = false) :
    validateMinLen v min fieldName =
      (if 0 < min then
        .ok (fieldName ++ " must be at least " ++ toString min ++ " characters.")
       else .ok "") := by
  unfold validateMinLen
  rw [jsOrEmpty_falsy v hv]
  show (Except.ok "" >>= fun v =>
    if v.length < min then
      pure (fieldName ++ " must be at least " ++ toString min ++ " characters.")
    else pure "") = _
  rw [exceptBind_ok]
  rfl

theorem PHONE_RE_test_iff (t : String) : PHONE_RE_test t = true ↔ phoneClaimOk t := by
  unfold PHONE_RE_test phoneClaimOk phoneCharOk
  simp only [Bool.and_eq_true, List.all_eq_true, decide_eq_true_eq, Bool.or_eq_true,
    beq_iff_eq]
  constructor
  · rintro ⟨h1, h2⟩
    exact ⟨h1, fun c hc => by have := h2 c hc; tauto⟩
  · rintro ⟨h1, h2⟩
    exact ⟨h1, fun c hc => by have := h2 c hc; tauto⟩

theorem validateRequired_cases (v : JsVal) :
    validateRequired v = "" ∨ validateRequired v = "This field is required." := by
  cases v with
  | str s =>
    by_cases h : jsTrim s = ""
    · right; simp [validateRequired, h]
    · left; simp [validateRequired, h]
  | undef => right; rfl
  | jsnull => right; rfl
  | num n => right; rfl
  | bool b => right; rfl

theorem validateEmail_cases (v : JsVal) :
    validateEmail v = "" ∨ validateEmail v = "This field is required." ∨
      validateEmail v = "Enter a valid email address." := by
  cases v with
  | str s =>
    by_cases h : jsTrim s = ""
    · right; left; simp [validateEmail, validateRequired, h]
    · by_cases he : EMAIL_RE_test (jsTrim s)
      · left; simp [validateEmail, validateRequired, h, he]
      · right; right; simp [validateEmail, validateRequired, h, he]
  | undef => right; left; rfl
  | jsnull => right; left; rfl
  | num n => right; left; rfl
  | bool b => right; left; rfl

/-- Claim C5 counterexample: contrary to the claim that every field
validator is total on wrong-typed inputs and never raises,
`validatePhoneOptional` applied to the (truthy, wrong-typed) number
`5` evaluates `(5 || "").trim()` and throws a `TypeError`. -/
theorem claim_C5_counterexample :
    validatePhoneOptional (JsVal.num 5) =
      Except.error "TypeError: value.trim is not a function" := rfl

/-- Claim C5 as amended: `validateRequired` and `validateEmail` are
total on every raw value and return the empty string or one of their
fixed non-empty messages; `validatePhoneOptional` and `validateMinLen`
never raise on string or falsy (absent) inputs and then return the
empty string or their fixed non-empty message — but they do raise a
`TypeError` on every truthy non-string input. -/
theorem claim_C5_amended :
    (∀ v, validateRequired v = "" ∨ validateRequired v = "This field is required.") ∧
    (∀ v, validateEmail v = "" ∨ validateEmail v = "This field is required." ∨
      validateEmail v = "Enter a valid email address.") ∧
    (∀ v, (jsTruthy v = false ∨ ∃ s, v = JsVal.str s) →
      ∃ m, validatePhoneOptional v = .ok m ∧
        (m = "" ∨ m = "Enter a valid phone number.")) ∧
    (∀ (v : JsVal) (min : Nat) (fieldName : String),
      (jsTruthy v = false ∨ ∃ s, v = JsVal.str s) →
      ∃ m, validateMinLen v min fieldName = .ok m ∧
        (m = "" ∨ m = fieldName ++ " must be at least " ++ toString min ++ " characters.")) ∧
    (∀ v, jsTruthy v = true → (∀ s, v ≠ JsVal.str s) →
      validatePhoneOptional v = .error "TypeError: value.trim is not a function") ∧
    (∀ (v : JsVal) (min : Nat) (fieldName : String),
      jsTruthy v = true → (∀ s, v ≠ JsVal.str s) →
      validateMinLen v min fieldName =
        .error "TypeError: value.trim is not a function") := by
  refine ⟨validateRequired_cases, validateEmail_cases, ?_, ?_, ?_, ?_⟩
  · intro v hv
    rcases hv with hv | ⟨s, rfl⟩
    · exact ⟨"", validatePhoneOptional_falsy v hv, Or.inl rfl⟩
    · rw [validatePhoneOptional_str]
      by_cases h : jsTrim s = ""
      · exact ⟨"", by simp [h], Or.inl rfl⟩
      · by_cases he : PHONE_RE_test (jsTrim s)
        · exact ⟨"", by simp [h, he], Or.inl rfl⟩
        · exact ⟨"Enter a valid phone number.", by simp [h, he], Or.inr rfl⟩
  · intro v min fieldName hv
    rcases hv with hv | ⟨s, rfl⟩
    · rw [validateMinLen_falsy v min fieldName hv]
      by_cases h : 0 < min
      · exact ⟨_, by simp [h], Or.inr rfl⟩
      · exact ⟨"", by simp [h], Or.inl rfl⟩
    · rw [validateMinLen_str]
      by_cases h : (jsTrim s).length < min
      · exact ⟨_, by simp [h], Or.inr rfl⟩
      · exact ⟨"", by simp [h], Or.inl rfl⟩
  · intro v hv hns
    cases v with
    | str s => exact absurd rfl (hns s)
    | undef => simp [jsTruthy] at hv
    | jsnull => simp [jsTruthy] at hv
    | num n =>
      unfold validatePhoneOptional
      rw [jsOrEmpty, if_pos hv]
      rfl
    | bool b =>
      unfold validatePhoneOptional
      rw [jsOrEmpty, if_pos hv]
      rfl
  · intro v min fieldName hv hns
    cases v with
    | str s => exact absurd rfl (hns s)
    | undef => simp [jsTruthy] at hv
    | jsnull => simp [jsTruthy] at hv
    | num n =>
      unfold validateMinLen
      rw [jsOrEmpty, if_pos hv]
      rfl
    | bool b =>
      unfold validateMinLen
      rw [jsOrEmpty, if_pos hv]
      rfl

theorem claim_C5_witness :
    ∃ m, validatePhoneOptional (JsVal.str "ab") = .ok m ∧
      (m = "" ∨ m = "Enter a valid phone number.") :=
  claim_C5_amended.2.2.1 (JsVal.str "ab") (Or.inr ⟨"ab", rfl⟩)

/-- Claim C9: `validatePhoneOptional` accepts every absent or
empty/blank value; on a value with non-empty trimmed form it accepts
exactly when the trimmed value matches the permissive phone pattern
(only digits, whitespace, parentheses, `+`, `-`, `.`, at least 7
characters) and otherwise returns the fixed non-empty error
message. -/
theorem claim_C9_phone_validator :
    validatePhoneOptional JsVal.undef = .ok "" ∧
    validatePhoneOptional JsVal.jsnull = .ok "" ∧
    (∀ s, jsTrim s = "" → validatePhoneOptional (JsVal.str s) = .ok "") ∧
    (∀ s, jsTrim s ≠ "" →
      ((validatePhoneOptional (JsVal.str s) = .ok "") ↔ phoneClaimOk (jsTrim s)) ∧
      (¬ phoneClaimOk (jsTrim s) →
        validatePhoneOptional (JsVal.str s) = .ok "Enter a valid phone number.")) := by
  refine ⟨rfl, rfl, ?_, ?_⟩
  · intro s h
    rw [validatePhoneOptional_str, if_pos h]
  · intro s h
    rw [validatePhoneOptional_str, if_neg h]
    constructor
    · constructor
      · intro hok
        by_cases hre : PHONE_RE_test (jsTrim s)
        · exact (PHONE_RE_test_iff _).mp hre
        · rw [Bool.not_eq_true] at hre
          simp [hre] at hok
      · intro hclaim
        have hre : PHONE_RE_test (jsTrim s) = true := (PHONE_RE_test_iff _).mpr hclaim
        simp [hre]
    · intro hclaim
      have hre : PHONE_RE_test (jsTrim s) = false := by
        by_cases hre : PHONE_RE_test (jsTrim s)
        · exact absurd ((PHONE_RE_test_iff _).mp hre) hclaim
        · rwa [Bool.not_eq_true] at hre
      simp [hre]

theorem claim_C9_witness :
    (validatePhoneOptional (JsVal.str "5551234567") = .ok "") ↔
      phoneClaimOk (jsTrim "5551234567") :=
  (claim_C9_phone_validator.2.2.2 "5551234567" (by decide)).1

/-- Claim C6: for every window the cooldown query returns a
non-negative value (it is a total function — the storage `try`/`catch`
is modelled by the `throws` case), and it returns `0` whenever the
persisted timestamp is absent, corrupt (non-numeric), the window has
fully elapsed, or the storage read throws. -/
theorem claim_C6_cooldown_safe (windowMs : Int) (storage : StorageRead) (now : Int) :
    0 ≤ getLeadSubmissionCooldownRemainingMs windowMs storage now ∧
    (cooldownVoid windowMs storage now →
      getLeadSubmissionCooldownRemainingMs windowMs storage now = 0) := by
  cases storage with
  | throws => exact ⟨le_refl 0, fun _ => rfl⟩
  | absent => exact ⟨le_refl 0, fun _ => rfl⟩
  | val raw =>
    by_cases hraw : raw = ""
    · refine ⟨?_, fun _ => ?_⟩ <;> simp [getLeadSubmissionCooldownRemainingMs, hraw]
    · rcases hjs : jsNumber raw with _ | ts
      · refine ⟨?_, fun _ => ?_⟩ <;>
          simp [getLeadSubmissionCooldownRemainingMs, hraw, hjs]
      · constructor
        · unfold getLeadSubmissionCooldownRemainingMs
          dsimp only
          rw [if_neg hraw, hjs]
          dsimp only
          split <;> omega
        · intro hvoid
          rcases hvoid with h | h | ⟨raw', hval, hnone⟩ | ⟨raw', ts', hval, hsome, helapsed⟩
          · cases h
          · cases h
          · cases hval
            rw [hjs] at hnone
            cases hnone
          · cases hval
            rw [hjs] at hsome
            cases hsome
            unfold getLeadSubmissionCooldownRemainingMs
            dsimp only
            rw [if_neg hraw, hjs]
            dsimp only
            rw [if_neg (by omega : ¬ windowMs - (now - ts) > 0)]

theorem claim_C6_witness :
    0 ≤ getLeadSubmissionCooldownRemainingMs 500 StorageRead.absent 0 ∧
    getLeadSubmissionCooldownRemainingMs 500 StorageRead.absent 0 = 0 :=
  ⟨(claim_C6_cooldown_safe 500 StorageRead.absent 0).1,
   (claim_C6_cooldown_safe 500 StorageRead.absent 0).2 (Or.inr (Or.inl rfl))⟩

/-- Claim C7: a lead-form submit requested while the submission state
is already `"submitting"` (the cooldown still inactive, as it is
before the first submit resolves) is a no-op — the state is unchanged
and no write attempt is dispatched — and in the concrete
two-submits-in-rapid-succession scenario exactly one write attempt
reaches the resolver. -/
theorem claim_C7_duplicate_submit_noop :
    (∀ (form : LeadFormValues) (cd : Int), cd ≤ 0 →
      handleLeadSubmitStep cd form "submitting" = .ok ("submitting", 0)) ∧
    handleLeadSubmitStep 0 leadIdleForm "idle" = .ok ("submitting", 1) ∧
    handleLeadSubmitStep 0 leadIdleForm "submitting" = .ok ("submitting", 0) := by
  refine ⟨?_, rfl, rfl⟩
  intro form cd hcd
  unfold handleLeadSubmitStep
  rw [if_neg (by omega : ¬ cd > 0), if_pos rfl]

theorem claim_C7_witness :
    handleLeadSubmitStep (-5) leadIdleForm "submitting" = .ok ("submitting", 0) :=
  claim_C7_duplicate_submit_noop.1 leadIdleForm (-5) (by omega)

/-- Claim C10: when the persisted value parses to a finite timestamp
strictly in the future of the (non-negative) current time, the
cooldown query returns `windowMs + (t - now)` — strictly more than the
(non-negative) window: the remainder is not clamped to the window. -/
theorem claim_C10_future_timestamp (raw : String) (t now windowMs : Int)
    (hjs : jsNumber raw = some t) (hfuture : now < t) (hnow : 0 ≤ now)
    (hw : 0 ≤ windowMs) :
    getLeadSubmissionCooldownRemainingMs windowMs (.val raw) now =
      windowMs + (t - now) ∧
    windowMs < getLeadSubmissionCooldownRemainingMs windowMs (.val raw) now := by
  have hraw : raw ≠ "" := by
    intro h
    rw [h] at hjs
    have h0 : jsNumber "" = some 0 := rfl
    rw [h0] at hjs
    cases hjs
    omega
  unfold getLeadSubmissionCooldownRemainingMs
  dsimp only
  rw [if_neg hraw, hjs]
  dsimp only
  rw [if_pos (by omega : windowMs - (now - t) > 0)]
  constructor <;> omega

theorem claim_C10_witness :
    getLeadSubmissionCooldownRemainingMs 200 (StorageRead.val "1000") 500 =
      200 + (1000 - 500) ∧
    (200 : Int) < getLeadSubmissionCooldownRemainingMs 200 (StorageRead.val "1000") 500 :=
  claim_C10_future_timestamp "1000" 1000 500 200 rfl (by omega) (by omega) (by omega)
